import Mathlib

/-!
Verification development for the query-processing pipeline
(validator → processor with optional keyword retrieval → pipeline assembly).

Python strings are embedded as lists of characters (`PyStr`); Python's
`str.lower`, `str.strip` and `str.split()` (whitespace splitting that drops
empty fields) are embedded as `pyLower`, `pyStrip` and `pySplit`.  Knowledge
base documents are JSON objects whose optional `text` field is modelled as an
`Option PyStr` (`doc.get` with default `''` becomes `Option.getD`).  The
external pieces — ULID generation, the OpenAI client, the clock and the file
system — are modelled as explicit parameters (an identifier argument, an LLM
oracle function, and an optional list of file lines respectively).
-/

abbrev PyStr := List Char

/-- Python `s.lower()` (ASCII case folding, character by character). -/
def pyLower (s : PyStr) : PyStr := s.map Char.toLower

/-- Python `s.strip()`: drop whitespace from both ends. -/
def pyStrip (s : PyStr) : PyStr :=
  ((s.dropWhile Char.isWhitespace).reverse.dropWhile Char.isWhitespace).reverse

/-- Python `s.split()` with no separator: split on whitespace runs, dropping
empty fields. -/
def pySplit (s : PyStr) : List PyStr :=
  (s.splitOnP Char.isWhitespace).filter (fun w => !w.isEmpty)

/-- The case-insensitive word set of a string: `set(s.lower().split())`. -/
def wordSet (s : PyStr) : Finset PyStr := (pySplit (pyLower s)).toFinset

/-- A knowledge-base document: a JSON object that may or may not carry a
`text` field; other fields are irrelevant to the core logic. -/
structure Doc where
  text : Option PyStr
deriving DecidableEq

/-- `doc.get('text', '')` from `_retrieve_context`. -/
def docText (d : Doc) : PyStr := d.text.getD []

/-- The keyword overlap score from `_retrieve_context`:
`len(query_words & doc_words)` on the lowercased whitespace-split word sets. -/
def overlap (query d : PyStr) : Nat := (wordSet query ∩ wordSet d).card

/-- The configuration fields of `config.Settings` that the core logic reads. -/
structure Settings where
  min_query_length : Nat
  max_query_length : Nat
  enable_retrieval : Bool
  top_k : Nat
deriving DecidableEq

/-- The scored document list built by the loop in `_retrieve_context`:
for each corpus document, in corpus order, the pair
`(overlap, doc_text)` — kept only when the overlap is positive. -/
def scoredDocs (query : PyStr) (kb : List Doc) : List (Nat × PyStr) :=
  kb.filterMap (fun d =>
    let t := docText d
    let ov := overlap query t
    if 0 < ov then some (ov, t) else none)

/-- Insert into a descending-score list, before the first element of equal or
smaller score (the insertion point a stable descending sort uses). -/
def insertDesc (x : Nat × PyStr) : List (Nat × PyStr) → List (Nat × PyStr)
  | [] => [x]
  | y :: ys => if y.1 ≤ x.1 then x :: y :: ys else y :: insertDesc x ys

/-- Stable insertion sort by descending score.  Python's
`scored_docs.sort(reverse=True, key=lambda x: x[0])` is a stable sort by
descending first component; any two stable descending sorts agree, so this
is an exact model of it. -/
def sortDesc : List (Nat × PyStr) → List (Nat × PyStr)
  | [] => []
  | x :: xs => insertDesc x (sortDesc xs)

namespace Processor

/-- `Processor._retrieve_context`: empty when retrieval is disabled or the
corpus is empty; otherwise score, drop zero scores, stable-sort descending,
take the first `top_k` texts. -/
def retrieve_context (s : Settings) (knowledge_base : List Doc)
    (query : PyStr) : List PyStr :=
  if ¬ s.enable_retrieval ∨ knowledge_base = [] then []
  else ((sortDesc (scoredDocs query knowledge_base)).take s.top_k).map Prod.snd

/-- `Processor._load_knowledge_base`'s parsing loop: parse each stripped line
in order; a single malformed line makes the whole parse fail. -/
def parseLines (parseLine : PyStr → Option Doc) : List PyStr → Option (List Doc)
  | [] => some []
  | l :: ls =>
    match parseLine (pyStrip l) with
    | none => none
    | some d => (parseLines parseLine ls).map (fun ds => d :: ds)

/-- `Processor._load_knowledge_base`: a missing file (`none`) yields an empty
collection (warning path), and any malformed line aborts the whole load,
also yielding an empty collection (error path). -/
def load_knowledge_base (parseLine : PyStr → Option Doc)
    (file : Option (List PyStr)) : List Doc :=
  match file with
  | none => []
  | some lines => (parseLines parseLine lines).getD []

end Processor

/-- Coerce a Lean string literal to the embedded string type. -/
def pyStr (s : String) : PyStr := s.toList

/-- The fixed fragment `"Context information:\n"` of the RAG user prompt. -/
def contextHeader : PyStr := pyStr "Context information:\n"

/-- The separator `"\n\n"` joining the retrieved context entries. -/
def blankLine : PyStr := pyStr "\n\n"

/-- The fragment `"\n\nQuestion: "` preceding the literal query. -/
def questionHeader : PyStr := pyStr "\n\nQuestion: "

/-- The trailing instruction of the RAG user prompt: answer from the context
above, and say so if the context lacks the relevant information. -/
def answerInstruction : PyStr :=
  pyStr "\n\nAnswer based on the context above. If the context doesn\x27t contain relevant information, say so."

/-- Python `sep.join(xs)`. -/
def pyJoin (sep : PyStr) : List PyStr → PyStr
  | [] => []
  | [x] => x
  | x :: y :: xs => x ++ sep ++ pyJoin sep (y :: xs)

/-- Step 2 of `Processor.process`: the user prompt is the query itself when
no context was retrieved, and otherwise the fixed f-string template around
the context entries (joined by a blank line) and the query. -/
def build_user_prompt (context_docs : List PyStr) (query : PyStr) : PyStr :=
  if ¬ context_docs.isEmpty then
    contextHeader ++ pyJoin blankLine context_docs
      ++ questionHeader ++ query ++ answerInstruction
  else query

/-- The `message` object of a completion choice; a missing/null `content`
(Python `None`, whose `.strip()` raises `AttributeError`) is `none`. -/
structure LLMMessage where
  content : Option PyStr
deriving DecidableEq

/-- One completion choice of an LLM response. -/
structure LLMChoice where
  message : LLMMessage
deriving DecidableEq

/-- The structural part of a chat-completion response that
`Processor.process` reads: the list of choices. -/
structure LLMResponse where
  choices : List LLMChoice
deriving DecidableEq

/-- The two request-time failure kinds of the processor: the LLM call itself
failed (`RuntimeError("Error in LLM API response")`), or the response could
not be parsed / was empty (`RuntimeError("Error parsing LLM response")`). -/
inductive ProcessingError
  | llmCallFailed
  | emptyResponse
deriving DecidableEq

/-- Step 4 of `Processor.process`: extract `choices[0].message.content`,
strip it, and fail on a missing choice (`IndexError`), a null content
(`AttributeError`) or an empty stripped answer (`ValueError`). -/
def parse_response (response : LLMResponse) : Except ProcessingError PyStr :=
  match response.choices with
  | [] => .error .emptyResponse
  | choice :: _ =>
    match choice.message.content with
    | none => .error .emptyResponse
    | some content =>
      if (pyStrip content).isEmpty then .error .emptyResponse
      else .ok (pyStrip content)

/-- `models.UserQuery`: the validated query together with its generated id.
Its pydantic `field_validator` on `query` (which rejects empty or
whitespace-only values and re-strips the value) runs at construction time
and is modelled by the fallible constructor `mkUserQuery`. -/
structure UserQuery where
  query_id : PyStr
  query : PyStr
deriving DecidableEq

/-- Construction of `models.UserQuery`: the `field_validator` on `query`
raises `ValueError("Query cannot be empty")` when the value is empty or
whitespace-only (`if not v or not v.strip()`), and otherwise stores the
stripped value (`return v.strip()`). -/
def mkUserQuery (query_id v : PyStr) : Option UserQuery :=
  if v.isEmpty ∨ (pyStrip v).isEmpty then none
  else some ⟨query_id, pyStrip v⟩

/-- `models.ProcessorResult` (the `confidence` field is never set by the
processor and is omitted). -/
structure ProcessorResult where
  query_id : PyStr
  answer : PyStr
  sources_used : List PyStr
deriving DecidableEq

namespace Processor

/-- `Processor.process`: retrieve context, build the user prompt, call the
LLM (modelled as an oracle that either fails or returns a response), and
parse the response. -/
def process (s : Settings) (knowledge_base : List Doc)
    (llm : PyStr → PyStr → Except Unit LLMResponse) (system_prompt : PyStr)
    (item : UserQuery) : Except ProcessingError ProcessorResult :=
  let context_docs := retrieve_context s knowledge_base item.query
  let user_prompt := build_user_prompt context_docs item.query
  match llm system_prompt user_prompt with
  | .error _ => .error .llmCallFailed
  | .ok response =>
    match parse_response response with
    | .error e => .error e
    | .ok answer =>
      .ok ⟨item.query_id, answer,
        if ¬ context_docs.isEmpty then context_docs else []⟩

end Processor

/-- The failure kinds of `Validator.validate`: the two explicit length
checks (`RuntimeError`), and the `ValueError("Query cannot be empty")`
raised by `models.UserQuery`'s field_validator when the returned object is
constructed. -/
inductive ValidationError
  | tooShort
  | tooLong
  | emptyQuery
deriving DecidableEq

namespace Validator

/-- `Validator.validate`: strip the raw query and enforce the configured
length bounds; on success return the trimmed text with the generated id
(identifier generation is an external effect, modelled by the `query_id`
argument). -/
def validate (s : Settings) (query_id : PyStr) (query : PyStr) :
    Except ValidationError UserQuery :=
  let query_clean := pyStrip query
  if query_clean.length < s.min_query_length then .error .tooShort
  else if s.max_query_length < query_clean.length then .error .tooLong
  else
    match mkUserQuery query_id query_clean with
    | none => .error .emptyQuery
    | some item => .ok item

end Validator

/-- A pipeline failure: a validation error or a processing error, propagated
unchanged. -/
inductive PipelineError
  | validation (e : ValidationError)
  | processing (e : ProcessingError)
deriving DecidableEq

/-- `models.PipelineResult`; the two metadata entries are fields
(`processing_time_ms` is wall-clock time, outside the model). -/
structure PipelineResult where
  query_id : PyStr
  query : PyStr
  answer : PyStr
  sources : List PyStr
  sources_count : Nat
  has_context : Bool
deriving DecidableEq

namespace Pipeline

/-- `Pipeline.process`: validate, process, and assemble the final result
with its `sources_count` / `has_context` metadata. -/
def process (s : Settings) (knowledge_base : List Doc)
    (llm : PyStr → PyStr → Except Unit LLMResponse) (system_prompt : PyStr)
    (query_id : PyStr) (query : PyStr) : Except PipelineError PipelineResult :=
  match Validator.validate s query_id query with
  | .error e => .error (.validation e)
  | .ok validated_query =>
    match Processor.process s knowledge_base llm system_prompt validated_query with
    | .error e => .error (.processing e)
    | .ok r =>
      .ok ⟨r.query_id, validated_query.query, r.answer, r.sources_used,
        r.sources_used.length, decide (0 < r.sources_used.length)⟩

end Pipeline

/-- A concrete configuration for the ranking scenario: retrieval on,
`top_k = 2`. -/
def exSettings : Settings := ⟨3, 2000, true, 2⟩

/-- A concrete corpus whose documents score `3, 1, 3, 0` (in corpus order)
against `exQuery`. -/
def exCorpus : List Doc :=
  [⟨some (pyStr "alpha beta gamma")⟩, ⟨some (pyStr "alpha x y")⟩,
   ⟨some (pyStr "Gamma beta ALPHA extra")⟩, ⟨some (pyStr "zzz")⟩]

/-- The concrete query of the ranking scenario. -/
def exQuery : PyStr := pyStr "alpha beta gamma"

/-- A concrete LLM oracle that always answers `"An answer."`. -/
def exLLM : PyStr → PyStr → Except Unit LLMResponse :=
  fun _ _ => .ok ⟨[⟨⟨some (pyStr "An answer.")⟩⟩]⟩

/-- The pipeline result of running `exLLM` on the query `"hello"` with
retrieval disabled. -/
def exResult : PipelineResult :=
  ⟨pyStr "id1", pyStr "hello", pyStr "An answer.", [], 0, false⟩

/-- A concrete line parser: every line except `"bad"` parses to a document
carrying that line as its text. -/
def exParse : PyStr → Option Doc :=
  fun l => if l = pyStr "bad" then none else some ⟨some l⟩

theorem perm_insertDesc (x : Nat × PyStr) (l : List (Nat × PyStr)) :
    List.Perm (insertDesc x l) (x :: l) := by
  induction l with
  | nil => simp [insertDesc]
  | cons y ys ih =>
    by_cases h : y.1 ≤ x.1
    · simp [insertDesc, h]
    · simp only [insertDesc, if_neg h]
      exact (List.Perm.cons y ih).trans (List.Perm.swap x y ys)

theorem perm_sortDesc (l : List (Nat × PyStr)) : List.Perm (sortDesc l) l := by
  induction l with
  | nil => simp [sortDesc]
  | cons x xs ih =>
    exact (perm_insertDesc x (sortDesc xs)).trans (List.Perm.cons x ih)

theorem pairwise_insertDesc (x : Nat × PyStr) {l : List (Nat × PyStr)}
    (h : l.Pairwise (fun a b => b.1 ≤ a.1)) :
    (insertDesc x l).Pairwise (fun a b => b.1 ≤ a.1) := by
  induction l with
  | nil => simp [insertDesc]
  | cons y ys ih =>
    rcases List.pairwise_cons.1 h with ⟨hy, hys⟩
    by_cases hc : y.1 ≤ x.1
    · simp only [insertDesc, if_pos hc]
      refine List.pairwise_cons.2 ⟨?_, h⟩
      intro z hz
      rcases List.mem_cons.1 hz with rfl | hz
      · exact hc
      · exact le_trans (hy z hz) hc
    · simp only [insertDesc, if_neg hc]
      refine List.pairwise_cons.2 ⟨?_, ih hys⟩
      intro z hz
      rcases List.mem_cons.1 ((perm_insertDesc x ys).mem_iff.1 hz) with rfl | hz
      · exact (Nat.lt_of_not_le hc).le
      · exact hy z hz

theorem pairwise_sortDesc (l : List (Nat × PyStr)) :
    (sortDesc l).Pairwise (fun a b => b.1 ≤ a.1) := by
  induction l with
  | nil => simp [sortDesc]
  | cons x xs ih => exact pairwise_insertDesc x ih

theorem filter_insertDesc (x : Nat × PyStr) (l : List (Nat × PyStr)) (sc : Nat) :
    (insertDesc x l).filter (fun p => p.1 == sc)
      = if x.1 = sc then x :: l.filter (fun p => p.1 == sc)
        else l.filter (fun p => p.1 == sc) := by
  induction l with
  | nil => by_cases hx : x.1 = sc <;> simp [insertDesc, hx]
  | cons y ys ih =>
    by_cases hc : y.1 ≤ x.1
    · simp only [insertDesc]
      rw [if_pos hc]
      by_cases hx : x.1 = sc <;> simp [List.filter_cons, hx]
    · simp only [insertDesc]
      rw [if_neg hc]
      have hlt : x.1 < y.1 := Nat.lt_of_not_le hc
      by_cases hx : x.1 = sc
      · have hy : ¬ y.1 = sc := by omega
        simp [List.filter_cons, hy, ih, hx]
      · simp [List.filter_cons, ih, hx]

theorem filter_sortDesc (l : List (Nat × PyStr)) (sc : Nat) :
    (sortDesc l).filter (fun p => p.1 == sc) = l.filter (fun p => p.1 == sc) := by
  induction l with
  | nil => simp [sortDesc]
  | cons x xs ih =>
    by_cases hx : x.1 = sc <;>
      simp [sortDesc, filter_insertDesc, List.filter_cons, hx, ih]

theorem mem_scoredDocs {q : PyStr} {kb : List Doc} {p : Nat × PyStr}
    (h : p ∈ scoredDocs q kb) :
    0 < p.1 ∧ p.1 = overlap q p.2 ∧ ∃ d ∈ kb, p.2 = docText d := by
  rcases List.mem_filterMap.1 h with ⟨d, hd, hf⟩
  simp only at hf
  split at hf
  · rcases Option.some_inj.1 hf with rfl
    exact ⟨by assumption, rfl, d, hd, rfl⟩
  · exact absurd hf (by simp)

theorem mem_retrieve {s : Settings} {kb : List Doc} {q t : PyStr}
    (h : t ∈ Processor.retrieve_context s kb q) :
    0 < overlap q t ∧ ∃ d ∈ kb, t = docText d := by
  unfold Processor.retrieve_context at h
  split at h
  · exact absurd h (List.not_mem_nil t)
  · rcases List.mem_map.1 h with ⟨p, hp, rfl⟩
    have hp' : p ∈ sortDesc (scoredDocs q kb) := List.mem_of_mem_take hp
    have hp'' : p ∈ scoredDocs q kb := (perm_sortDesc _).mem_iff.1 hp'
    rcases mem_scoredDocs hp'' with ⟨hpos, hov, hd⟩
    exact ⟨hov ▸ hpos, hd⟩

/-- C1: with retrieval enabled and a non-empty corpus, `_retrieve_context`
returns at most `top_k` texts, none of overlap score zero, and the result is
the text of the first `top_k` entries of the unique stable descending
rearrangement of the scored documents (weakly descending scores, every score
class kept in original corpus order); on the concrete corpus scoring
`3, 1, 3, 0` with `top_k = 2` the result is exactly the two score-3
documents in corpus order. -/
theorem C1_retrieval_ranking (s : Settings) (kb : List Doc) (q : PyStr)
    (hen : s.enable_retrieval = true) (hne : kb ≠ []) :
    (Processor.retrieve_context s kb q).length ≤ s.top_k ∧
    (∀ t ∈ Processor.retrieve_context s kb q, 0 < overlap q t) ∧
    (∃ ranked : List (Nat × PyStr),
      List.Perm ranked (scoredDocs q kb) ∧
      ranked.Pairwise (fun a b => b.1 ≤ a.1) ∧
      (∀ sc : Nat, ranked.filter (fun p => p.1 == sc)
        = (scoredDocs q kb).filter (fun p => p.1 == sc)) ∧
      Processor.retrieve_context s kb q = (ranked.take s.top_k).map Prod.snd) ∧
    Processor.retrieve_context exSettings exCorpus exQuery
      = [pyStr "alpha beta gamma", pyStr "Gamma beta ALPHA extra"] := by
  have hcond : ¬ (¬ s.enable_retrieval ∨ kb = []) := by simp [hen, hne]
  refine ⟨?_, ?_, ?_, by decide⟩
  · unfold Processor.retrieve_context
    rw [if_neg hcond, List.length_map]
    exact List.length_take_le _ _
  · intro t ht
    exact (mem_retrieve ht).1
  · refine ⟨sortDesc (scoredDocs q kb), perm_sortDesc _, pairwise_sortDesc _,
      fun sc => filter_sortDesc _ sc, ?_⟩
    unfold Processor.retrieve_context
    rw [if_neg hcond]

/-- C1 witness: the hypotheses hold and the bound is obtained at the
concrete ranking scenario. -/
theorem C1_retrieval_ranking_witness :
    (exSettings.enable_retrieval = true ∧ exCorpus ≠ []) ∧
    (Processor.retrieve_context exSettings exCorpus exQuery).length
      ≤ exSettings.top_k :=
  ⟨⟨rfl, by decide⟩,
    (C1_retrieval_ranking exSettings exCorpus exQuery rfl (by decide)).1⟩

/-- C2: the overlap score `_retrieve_context` assigns to a document equals
the number of distinct case-insensitive whitespace-delimited words shared by
the query and the document text. -/
theorem C2_overlap_counts_distinct_shared_words (q d : PyStr) :
    overlap q d
      = ((pySplit (pyLower q)).filter
          (fun w => decide (w ∈ pySplit (pyLower d)))).dedup.length := by
  have h1 : wordSet q ∩ wordSet d
      = ((pySplit (pyLower q)).filter
          (fun w => decide (w ∈ pySplit (pyLower d)))).toFinset := by
    ext w
    simp [wordSet, List.mem_filter]
  rw [overlap, h1, List.card_toFinset]

theorem infix_pyJoin (sep : PyStr) {d : PyStr} {l : List PyStr} (h : d ∈ l) :
    List.IsInfix d (pyJoin sep l) := by
  induction l with
  | nil => cases h
  | cons x xs ih =>
    cases xs with
    | nil =>
      rcases List.mem_cons.1 h with rfl | h'
      · exact ⟨[], [], by simp [pyJoin]⟩
      · cases h'
    | cons y ys =>
      rcases List.mem_cons.1 h with rfl | h'
      · exact ⟨[], sep ++ pyJoin sep (y :: ys), by simp [pyJoin]⟩
      · rcases ih h' with ⟨p, q, hp⟩
        exact ⟨x ++ sep ++ p, q, by simp [pyJoin, ← hp]⟩

theorem pyStrip_eq_rdropWhile (s : PyStr) :
    pyStrip s
      = List.rdropWhile Char.isWhitespace (s.dropWhile Char.isWhitespace) := rfl

theorem pyStrip_idem (s : PyStr) : pyStrip (pyStrip s) = pyStrip s := by
  rw [pyStrip_eq_rdropWhile, pyStrip_eq_rdropWhile]
  have hdw : (List.rdropWhile Char.isWhitespace
        (s.dropWhile Char.isWhitespace)).dropWhile Char.isWhitespace
      = List.rdropWhile Char.isWhitespace (s.dropWhile Char.isWhitespace) := by
    rw [List.dropWhile_eq_self_iff]
    intro hl
    have hpre : List.IsPrefix
        (List.rdropWhile Char.isWhitespace (s.dropWhile Char.isWhitespace))
        (s.dropWhile Char.isWhitespace) :=
      List.rdropWhile_prefix Char.isWhitespace (s.dropWhile Char.isWhitespace)
    have hl' : 0 < (s.dropWhile Char.isWhitespace).length :=
      lt_of_lt_of_le hl hpre.length_le
    have hg := List.IsPrefix.getElem hpre hl
    simp only [List.get_eq_getElem, hg]
    have := List.dropWhile_get_zero_not (p := Char.isWhitespace) s hl'
    simpa using this
  rw [hdw, List.rdropWhile_idempotent]

theorem wordSet_nil : wordSet [] = ∅ := by decide

theorem overlap_nil (q : PyStr) : overlap q [] = 0 := by
  rw [overlap, wordSet_nil, Finset.inter_empty, Finset.card_empty]

theorem parseLines_eq_none {parseLine : PyStr → Option Doc} {lines : List PyStr}
    (h : ∃ l ∈ lines, parseLine (pyStrip l) = none) :
    Processor.parseLines parseLine lines = none := by
  induction lines with
  | nil => rcases h with ⟨l, hl, _⟩; cases hl
  | cons x xs ih =>
    rcases h with ⟨l, hl, hnone⟩
    rcases List.mem_cons.1 hl with rfl | hl'
    · simp [Processor.parseLines, hnone]
    · unfold Processor.parseLines
      cases hx : parseLine (pyStrip x)
      · rfl
      · simp [ih ⟨l, hl', hnone⟩]

/-- C3: with empty retrieved context the user message sent to the LLM is the
validated query text itself, unmodified; with non-empty context it is the
fixed template — the context entries joined by a blank line, then the
literal query, then the instruction to answer from the context and to say
so explicitly if the context is insufficient — so it contains every context
entry, then the query, then the instruction, in that order. -/
theorem C3_user_prompt_template (context_docs : List PyStr) (query : PyStr) :
    (context_docs = [] → build_user_prompt context_docs query = query) ∧
    (context_docs ≠ [] →
      build_user_prompt context_docs query
        = contextHeader ++ pyJoin blankLine context_docs
            ++ questionHeader ++ query ++ answerInstruction ∧
      (∀ d ∈ context_docs,
        List.IsInfix d (build_user_prompt context_docs query)) ∧
      List.IsInfix query (build_user_prompt context_docs query) ∧
      List.IsSuffix answerInstruction (build_user_prompt context_docs query)) := by
  constructor
  · intro h
    subst h
    simp [build_user_prompt]
  · intro hne
    have hne' : ¬ context_docs.isEmpty := by
      simpa [List.isEmpty_iff] using hne
    have heq : build_user_prompt context_docs query
        = contextHeader ++ pyJoin blankLine context_docs
            ++ questionHeader ++ query ++ answerInstruction := by
      simp [build_user_prompt, hne']
    refine ⟨heq, ?_, ?_, ?_⟩
    · intro d hd
      rcases infix_pyJoin blankLine hd with ⟨p, q, hp⟩
      exact ⟨contextHeader ++ p,
        q ++ questionHeader ++ query ++ answerInstruction,
        by rw [heq, ← hp]; simp⟩
    · exact ⟨contextHeader ++ pyJoin blankLine context_docs ++ questionHeader,
        answerInstruction, by rw [heq]⟩
    · exact ⟨contextHeader ++ pyJoin blankLine context_docs
          ++ questionHeader ++ query, by rw [heq]⟩

/-- C3 witness: at a concrete context and query both branches are obtained
from the theorem. -/
theorem C3_user_prompt_template_witness :
    build_user_prompt [] (pyStr "hi there") = pyStr "hi there" ∧
    build_user_prompt [pyStr "ctx one", pyStr "ctx two"] (pyStr "hi there")
      = contextHeader ++ pyJoin blankLine [pyStr "ctx one", pyStr "ctx two"]
          ++ questionHeader ++ pyStr "hi there" ++ answerInstruction :=
  ⟨(C3_user_prompt_template [] (pyStr "hi there")).1 rfl,
   ((C3_user_prompt_template [pyStr "ctx one", pyStr "ctx two"]
      (pyStr "hi there")).2 (List.cons_ne_nil _ _)).1⟩

/-- C4: a query whose trimmed length is below the configured minimum fails
validation as too-short, one whose trimmed length is above the configured
maximum fails as too-long, and in either case the pipeline returns exactly
that validation error for every corpus and every LLM oracle — the processor
(and hence the LLM) is never invoked. -/
theorem C4_invalid_query_rejected (s : Settings) (query_id query : PyStr)
    (hcfg : s.min_query_length ≤ s.max_query_length) :
    ((pyStrip query).length < s.min_query_length →
      Validator.validate s query_id query = .error .tooShort ∧
      ∀ (kb : List Doc) (llm : PyStr → PyStr → Except Unit LLMResponse)
        (system_prompt : PyStr),
        Pipeline.process s kb llm system_prompt query_id query
          = .error (.validation .tooShort)) ∧
    (s.max_query_length < (pyStrip query).length →
      Validator.validate s query_id query = .error .tooLong ∧
      ∀ (kb : List Doc) (llm : PyStr → PyStr → Except Unit LLMResponse)
        (system_prompt : PyStr),
        Pipeline.process s kb llm system_prompt query_id query
          = .error (.validation .tooLong)) := by
  constructor
  · intro hlt
    refine ⟨by simp [Validator.validate, hlt], ?_⟩
    intro kb llm system_prompt
    simp [Pipeline.process, Validator.validate, hlt]
  · intro hgt
    have hnlt : ¬ (pyStrip query).length < s.min_query_length := by omega
    refine ⟨by simp [Validator.validate, hnlt, hgt], ?_⟩
    intro kb llm system_prompt
    simp [Pipeline.process, Validator.validate, hnlt, hgt]

/-- C4 witness: under the default bounds, the query `" a "` (trimmed length
1) is rejected as too short. -/
theorem C4_invalid_query_rejected_witness :
    (exSettings.min_query_length ≤ exSettings.max_query_length) ∧
    Validator.validate exSettings [] (pyStr " a ") = .error .tooShort :=
  ⟨by decide,
   ((C4_invalid_query_rejected exSettings [] (pyStr " a ")
      (by decide)).1 (by decide)).1⟩

/-- C5 (amended): a query whose trimmed length lies within the configured
bounds and whose trimmed text is non-empty validates successfully, and the
returned `UserQuery` carries exactly the whitespace-trimmed input text
together with the generated id.  The non-emptiness condition is forced by
`models.UserQuery`'s field_validator: with `min_query_length = 0` a
whitespace-only query passes both length checks but `UserQuery`
construction raises `ValueError("Query cannot be empty")`. -/
theorem C5_valid_query_accepted (s : Settings) (query_id query : PyStr)
    (hmin : s.min_query_length ≤ (pyStrip query).length)
    (hmax : (pyStrip query).length ≤ s.max_query_length)
    (hne : pyStrip query ≠ []) :
    Validator.validate s query_id query = .ok ⟨query_id, pyStrip query⟩ := by
  simp [Validator.validate, mkUserQuery, Nat.not_lt.2 hmin, Nat.not_lt.2 hmax,
    List.isEmpty_iff, pyStrip_idem, hne]

/-- C5 counterexample: with `min_query_length = 0` the whitespace-only
query `"  "` has in-bounds trimmed length `0`, yet validation does not
succeed with the trimmed text — `models.UserQuery`'s field_validator
rejects the empty query at construction of the returned object. -/
theorem C5_valid_query_accepted_counterexample :
    ((⟨0, 2000, false, 3⟩ : Settings).min_query_length
        ≤ (pyStrip (pyStr "  ")).length ∧
      (pyStrip (pyStr "  ")).length
        ≤ (⟨0, 2000, false, 3⟩ : Settings).max_query_length) ∧
    Validator.validate ⟨0, 2000, false, 3⟩ (pyStr "id1") (pyStr "  ")
      = .error .emptyQuery ∧
    Validator.validate ⟨0, 2000, false, 3⟩ (pyStr "id1") (pyStr "  ")
      ≠ .ok ⟨pyStr "id1", pyStrip (pyStr "  ")⟩ := by
  refine ⟨⟨by decide, by decide⟩, rfl, ?_⟩
  intro h
  rw [show Validator.validate ⟨0, 2000, false, 3⟩ (pyStr "id1") (pyStr "  ")
      = Except.error ValidationError.emptyQuery from rfl] at h
  exact Except.noConfusion h

/-- C5 witness: `"  hello world  "` trims to the non-empty `"hello world"`
and is accepted under the default bounds. -/
theorem C5_valid_query_accepted_witness :
    (exSettings.min_query_length ≤ (pyStrip (pyStr "  hello world  ")).length ∧
      (pyStrip (pyStr "  hello world  ")).length ≤ exSettings.max_query_length ∧
      pyStrip (pyStr "  hello world  ") ≠ []) ∧
    Validator.validate exSettings (pyStr "id1") (pyStr "  hello world  ")
      = .ok ⟨pyStr "id1", pyStr "hello world"⟩ := by
  refine ⟨⟨by decide, by decide, by decide⟩, ?_⟩
  have h := C5_valid_query_accepted exSettings (pyStr "id1")
    (pyStr "  hello world  ") (by decide) (by decide) (by decide)
  have hs : pyStrip (pyStr "  hello world  ") = pyStr "hello world" := by decide
  rw [h, hs]

theorem parse_response_ok {r : LLMResponse} {a : PyStr}
    (h : parse_response r = .ok a) : pyStrip a = a ∧ a ≠ [] := by
  unfold parse_response at h
  split at h
  · exact Except.noConfusion h
  · split at h
    · exact Except.noConfusion h
    · split at h
      · exact Except.noConfusion h
      · rename_i hne
        injection h with h2
        constructor
        · rw [← h2, pyStrip_idem]
        · rw [← h2]
          simpa [List.isEmpty_iff] using hne

/-- C6: a structurally deficient LLM response — no completion choice, a
missing (`None`) message content, or content that is empty after trimming —
makes response parsing fail with the empty-response error, and
`Processor.process` with an oracle returning such a response fails with
that error rather than succeeding; consequently the answer of every
successfully returned `ProcessorResult` is non-empty after trimming. -/
theorem C6_empty_response_rejected :
    (∀ r : LLMResponse,
      (r.choices = [] ∨
        ∃ c rest, r.choices = c :: rest ∧
          (c.message.content = none ∨
            ∃ t, c.message.content = some t ∧ pyStrip t = [])) →
      parse_response r = .error .emptyResponse ∧
      ∀ (s : Settings) (kb : List Doc) (system_prompt : PyStr)
        (item : UserQuery),
        Processor.process s kb (fun _ _ => .ok r) system_prompt item
          = .error .emptyResponse) ∧
    (∀ (s : Settings) (kb : List Doc)
      (llm : PyStr → PyStr → Except Unit LLMResponse)
      (system_prompt : PyStr) (item : UserQuery) (res : ProcessorResult),
      Processor.process s kb llm system_prompt item = .ok res →
      pyStrip res.answer ≠ []) := by
  have hparse : ∀ r : LLMResponse,
      (r.choices = [] ∨
        ∃ c rest, r.choices = c :: rest ∧
          (c.message.content = none ∨
            ∃ t, c.message.content = some t ∧ pyStrip t = [])) →
      parse_response r = .error .emptyResponse := by
    intro r hr
    rcases hr with hnil | ⟨c, rest, hcons, hc⟩
    · simp [parse_response, hnil]
    · rcases hc with hnone | ⟨t, hsome, hempty⟩
      · simp [parse_response, hcons, hnone]
      · simp [parse_response, hcons, hsome, hempty]
  refine ⟨fun r hr => ⟨hparse r hr, ?_⟩, ?_⟩
  · intro s kb system_prompt item
    simp [Processor.process, hparse r hr]
  · intro s kb llm system_prompt item res h
    simp only [Processor.process] at h
    split at h
    · exact Except.noConfusion h
    · split at h
      · exact Except.noConfusion h
      · rename_i hp
        injection h with h2
        subst h2
        rcases parse_response_ok hp with ⟨hidem, hne⟩
        simpa [hidem] using hne

/-- C6 witness: a whitespace-only completion is rejected as an empty
response. -/
theorem C6_empty_response_rejected_witness :
    parse_response ⟨[⟨⟨some (pyStr "   ")⟩⟩]⟩ = .error .emptyResponse :=
  (C6_empty_response_rejected.1 ⟨[⟨⟨some (pyStr "   ")⟩⟩]⟩
    (Or.inr ⟨⟨⟨some (pyStr "   ")⟩⟩, [], rfl,
      Or.inr ⟨pyStr "   ", rfl, by decide⟩⟩)).1

/-- C7: when retrieval is disabled by configuration, or the loaded
knowledge base is empty, `_retrieve_context` returns the empty sequence for
every query, whatever the corpus contents. -/
theorem C7_retrieval_off_switch (s : Settings) (kb : List Doc) (q : PyStr)
    (h : s.enable_retrieval = false ∨ kb = []) :
    Processor.retrieve_context s kb q = [] := by
  unfold Processor.retrieve_context
  rcases h with h | h <;> simp [h]

/-- C7 witness: with retrieval disabled the non-trivial concrete corpus
yields no context. -/
theorem C7_retrieval_off_switch_witness :
    ((⟨3, 2000, false, 3⟩ : Settings).enable_retrieval = false ∨ exCorpus = []) ∧
    Processor.retrieve_context ⟨3, 2000, false, 3⟩ exCorpus exQuery = [] :=
  ⟨Or.inl rfl, C7_retrieval_off_switch ⟨3, 2000, false, 3⟩ exCorpus exQuery (Or.inl rfl)⟩

/-- C8: every successful pipeline result satisfies
`sources_count = len(sources)` and `has_context = (sources_count > 0)`; in
particular `has_context` holds exactly when `sources` is non-empty. -/
theorem C8_metadata_invariant (s : Settings) (kb : List Doc)
    (llm : PyStr → PyStr → Except Unit LLMResponse) (system_prompt : PyStr)
    (query_id query : PyStr) (res : PipelineResult)
    (h : Pipeline.process s kb llm system_prompt query_id query = .ok res) :
    res.sources_count = res.sources.length ∧
    res.has_context = decide (0 < res.sources.length) ∧
    (res.has_context = true ↔ res.sources ≠ []) := by
  simp only [Pipeline.process] at h
  split at h
  · exact Except.noConfusion h
  · split at h
    · exact Except.noConfusion h
    · injection h with h2
      subst h2
      refine ⟨rfl, rfl, ?_⟩
      simp [List.length_pos]

/-- C8 witness: a concrete successful run with retrieval disabled has
`sources_count = 0 = len(sources)`. -/
theorem C8_metadata_invariant_witness :
    Pipeline.process ⟨3, 2000, false, 3⟩ [] exLLM [] (pyStr "id1")
      (pyStr "hello") = .ok exResult ∧
    exResult.sources_count = exResult.sources.length :=
  ⟨rfl, (C8_metadata_invariant ⟨3, 2000, false, 3⟩ [] exLLM [] (pyStr "id1")
    (pyStr "hello") exResult rfl).1⟩

/-- C9: knowledge-base loading never aborts startup — a missing file loads
as the empty collection; any malformed line aborts the whole load to the
empty collection, discarding documents parsed from earlier lines; and with
an empty collection the processor's retrieval is inert for every query. -/
theorem C9_kb_load_degrades (parseLine : PyStr → Option Doc) :
    Processor.load_knowledge_base parseLine none = [] ∧
    (∀ lines : List PyStr, (∃ l ∈ lines, parseLine (pyStrip l) = none) →
      Processor.load_knowledge_base parseLine (some lines) = []) ∧
    (∀ (s : Settings) (q : PyStr), Processor.retrieve_context s [] q = []) := by
  refine ⟨rfl, ?_, ?_⟩
  · intro lines hbad
    simp [Processor.load_knowledge_base, parseLines_eq_none hbad]
  · intro s q
    unfold Processor.retrieve_context
    simp

/-- C9 witness: with a parser that rejects the line `"bad"`, a missing file
and a file whose second line is malformed both load as empty, although the
first line parses on its own. -/
theorem C9_kb_load_degrades_witness :
    exParse (pyStrip (pyStr "good")) = some ⟨some (pyStr "good")⟩ ∧
    Processor.load_knowledge_base exParse none = [] ∧
    Processor.load_knowledge_base exParse
      (some [pyStr "good", pyStr "bad"]) = [] :=
  ⟨by decide, (C9_kb_load_degrades exParse).1,
   (C9_kb_load_degrades exParse).2.1 [pyStr "good", pyStr "bad"]
     ⟨pyStr "bad", by decide, by decide⟩⟩

/-- C10: a knowledge-base document lacking a `text` field raises no error —
it is treated as having empty text, its overlap score with every query is
zero, and its text never appears in any retrieval result. -/
theorem C10_missing_text_field (d : Doc) (hd : d.text = none) :
    docText d = [] ∧
    (∀ q : PyStr, overlap q (docText d) = 0) ∧
    (∀ (s : Settings) (kb : List Doc) (q : PyStr),
      docText d ∉ Processor.retrieve_context s kb q) := by
  have ht : docText d = [] := by simp [docText, hd]
  refine ⟨ht, ?_, ?_⟩
  · intro q
    rw [ht, overlap_nil]
  · intro s kb q hmem
    have hpos := (mem_retrieve hmem).1
    rw [ht, overlap_nil] at hpos
    exact Nat.lt_irrefl 0 hpos

/-- C10 witness: the document `{}` (no `text` field) reads as empty text
and scores zero against the concrete query. -/
theorem C10_missing_text_field_witness :
    docText ⟨none⟩ = [] ∧ overlap exQuery (docText ⟨none⟩) = 0 :=
  ⟨(C10_missing_text_field ⟨none⟩ rfl).1,
   (C10_missing_text_field ⟨none⟩ rfl).2.1 exQuery⟩
